import Mathlib

/-!
Verification development for `rajhi_importer/rajhi_importer.py`, an importer
for Rajhi Bank credit-card PDF statements.

The Python module is shallowly embedded here:

* Python `re` patterns are embedded as `Re` terms and executed by a small
  backtracking matcher (`mrun`) that mirrors CPython's leftmost,
  first-alternative, greedy/lazy semantics for the constructs these patterns
  use (character classes, literals, alternation, greedy and lazy
  quantifiers, capture groups, word boundaries, end anchor).
* Fallible Python code (exceptions) is embedded as `Except PyErr`.
* `decimal.Decimal` values produced by beancount's `D` on the matched
  amount strings are embedded as `ℚ`.
* External collaborators (pdfplumber text extraction, MIME sniffing) are
  embedded as explicit inputs: the extracted per-page texts and the sniffed
  MIME type are arguments of the corresponding functions.
-/

/-- Python exceptions that the embedded code can raise. -/
inductive PyErr where
  | typeError : PyErr
  | valueError : PyErr
  | unboundLocalError : PyErr
  | nameError : PyErr
deriving DecidableEq, Repr

/-- A Python `datetime.date`. -/
structure PyDate where
  year : Nat
  month : Nat
  day : Nat
deriving DecidableEq, Repr

/-! ## Character classes used by the patterns (Python `re`, ASCII range) -/

/-- Python `\d` restricted to ASCII (all statement text involved is ASCII digits). -/
def isDigit (c : Char) : Bool := decide ('0' ≤ c) && decide (c ≤ '9')

/-- Python `\s` (ASCII whitespace). -/
def isPySpace (c : Char) : Bool :=
  c = ' ' || c = '\t' || c = '\n' || c = '\r' || c = '\x0b' || c = '\x0c'

/-- Python `[A-Z]`. -/
def isUpperAZ (c : Char) : Bool := decide ('A' ≤ c) && decide (c ≤ 'Z')

/-- Python `\w` (word character) for `\b` boundaries, ASCII range. -/
def isWordChar (c : Char) : Bool :=
  isDigit c || (decide ('a' ≤ c) && decide (c ≤ 'z')) || isUpperAZ c || c = '_'

/-- Python `.` (any character except newline). -/
def isAnyNoNl (c : Char) : Bool := c ≠ '\n'

/-! ## A small backtracking regex engine mirroring Python `re` -/

/-- Abstract syntax of the regex fragment the importer uses. -/
inductive Re where
  | eps : Re
  | lit : Char → Re
  | pred : (Char → Bool) → Re
  | seq : Re → Re → Re
  | alt : Re → Re → Re
  | starG : Re → Re
  | starL : Re → Re
  | group : Nat → Re → Re
  | wordB : Re
  | eol : Re

/-- Captured groups: group number paired with the captured substring.
Most recent capture first, so lookup by `List.find?` returns the last
successful capture, as Python's `group(n)` does. -/
def Caps := List (Nat × String)

/-- Continuation type of the matcher. Arguments: the character immediately
before the current position (for `\b`), the remaining input, the captures
so far. -/
def KCont := Option Char → List Char → Caps → Option Caps

/-- True when the position between `prev` and `s` is a Python `\b` word boundary. -/
def atWordBoundary (prev : Option Char) (s : List Char) : Bool :=
  let a := match prev with | some c => isWordChar c | none => false
  let b := match s with | c :: _ => isWordChar c | [] => false
  a != b

/-- The substring of `s` that precedes the suffix `s'` (used to record a
group's captured text). -/
def capturedBefore (s s' : List Char) : String :=
  String.mk (s.take (s.length - s'.length))

/-- One unfolding of the backtracking matcher; `rec` is the recursive call.
Alternation tries the left branch first; `starG` is greedy (matches the body
first), `starL` is lazy (tries the continuation first), exactly as in
Python `re`. -/
def mrunF (rec : Re → Option Char → List Char → Caps → KCont → Option Caps) :
    Re → Option Char → List Char → Caps → KCont → Option Caps :=
  fun re prev s caps k =>
    match re with
    | .eps => k prev s caps
    | .lit c =>
        match s with
        | [] => none
        | c' :: rest => if c' = c then k (some c') rest caps else none
    | .pred p =>
        match s with
        | [] => none
        | c' :: rest => if p c' then k (some c') rest caps else none
    | .seq a b => rec a prev s caps (fun p' s' cs => rec b p' s' cs k)
    | .alt a b =>
        match rec a prev s caps k with
        | some r => some r
        | none => rec b prev s caps k
    | .starG a =>
        match rec a prev s caps (fun p' s' cs => rec (.starG a) p' s' cs k) with
        | some r => some r
        | none => k prev s caps
    | .starL a =>
        match k prev s caps with
        | some r => some r
        | none => rec a prev s caps (fun p' s' cs => rec (.starL a) p' s' cs k)
    | .group n a =>
        rec a prev s caps (fun p' s' cs => k p' s' ((n, capturedBefore s s') :: cs))
    | .wordB => if atWordBoundary prev s then k prev s caps else none
    | .eol =>
        match s with
        | [] => k prev s caps
        | _ => none

/-- Fuel-indexed matcher. The fuel only bounds the recursion depth; it is
far larger than any depth reachable on statement lines. -/
def mrun (fuel : Nat) : Re → Option Char → List Char → Caps → KCont → Option Caps :=
  Nat.rec (fun _ _ _ _ _ => none) (fun _ ih => mrunF ih) fuel

/-- Engine fuel: a generous bound on the matcher's recursion depth (the
depth actually reached on a statement line is a small multiple of the line
length; failed branches unwind before new ones are tried, so backtracking
does not deepen the recursion). -/
def engineFuel : Nat := 20000

/-- Python `re.match(pat, s)`: anchored at the start, returns the match
object's captures (with the whole match recorded as group 0). -/
def rematch (pat : Re) (s : String) : Option Caps :=
  mrun engineFuel (.group 0 pat) none s.data [] (fun _ _ cs => some cs)

/-- Helper for `research`: try to match at each successive start position,
keeping track of the preceding character for `\b`. -/
def researchAux (pat : Re) : Option Char → List Char → Option Caps :=
  fun prev s =>
    match mrun engineFuel (.group 0 pat) prev s [] (fun _ _ cs => some cs) with
    | some cs => some cs
    | none =>
        match s with
        | [] => none
        | c :: rest => researchAux pat (some c) rest

/-- Python `re.search(pat, s)`: leftmost match anywhere in the string. -/
def research (pat : Re) (s : String) : Option Caps :=
  researchAux pat none s.data

/-- Python `match.group(n)` when the group may not have participated. -/
def capGet (m : Caps) (n : Nat) : Option String :=
  (List.find? (fun p => p.1 = n) m).map (fun p => p.2)

/-- Python `match.group(n)` for a group that participates in every
successful match (defaulting to `""` never fires on such groups). -/
def capD (m : Caps) (n : Nat) : String := (capGet m n).getD ""

/-! ## The concrete patterns of `rajhi_importer.py` -/

/-- Sequence a list of regexes. -/
def reSeqs (l : List Re) : Re := l.foldr .seq .eps

/-- Literal string as a regex. -/
def reStr (s : String) : Re := reSeqs (s.data.map .lit)

/-- Greedy `r+`. -/
def rePlusG (r : Re) : Re := .seq r (.starG r)

/-- Lazy `r+?`. -/
def rePlusL (r : Re) : Re := .seq r (.starL r)

/-- Greedy `r?`. -/
def reOpt (r : Re) : Re := .alt r .eps

/-- `\d`. -/
def reDigit : Re := .pred isDigit

/-- `\s+`. -/
def reWS : Re := rePlusG (.pred isPySpace)

/-- `[A-Z]{3}`. -/
def reCCC : Re := reSeqs [.pred isUpperAZ, .pred isUpperAZ, .pred isUpperAZ]

/-- `\d{2}/\d{2}/\d{2}`. -/
def reDate : Re :=
  reSeqs [reDigit, reDigit, .lit '/', reDigit, reDigit, .lit '/', reDigit, reDigit]

/-- `\d{1,3}(?:,\d{3})*\.\d+|\d+\.\d+` — a decimal amount, optionally
comma-grouped. -/
def reDecimal : Re :=
  .alt
    (reSeqs [reDigit, reOpt (.seq reDigit (reOpt reDigit)),
             .starG (reSeqs [.lit ',', reDigit, reDigit, reDigit]),
             .lit '.', rePlusG reDigit])
    (reSeqs [rePlusG reDigit, .lit '.', rePlusG reDigit])

/-- `(CR\s+)?` — group 1. -/
def reCROpt : Re := reOpt (.group 1 (reSeqs [.lit 'C', .lit 'R', reWS]))

/-- Source line 106: `advance_payment_pattern`. -/
def advance_payment_pattern : Re :=
  reSeqs [reCROpt, .group 2 reDecimal, reWS, .group 3 reDecimal, reWS,
          reStr "Advance Payment", reWS, rePlusL (.pred isAnyNoNl), reWS,
          .group 4 reDecimal, reWS, .group 5 reCCC, reWS,
          .group 6 reDate, reWS, .group 7 reDate, .eol]

/-- Source line 112: `general_pattern` (also identical to `pattern` at
line 169). -/
def general_pattern : Re :=
  reSeqs [reCROpt, .group 2 reDecimal, reWS, .group 3 reDecimal, reWS,
          .group 4 (rePlusL (.pred isAnyNoNl)), reWS,
          .group 5 reDate, reWS, .group 6 reDate, .eol]

/-- Source line 169: `pattern`, the standard transaction pattern. Its text
is identical to `general_pattern`. -/
def pattern : Re := general_pattern

/-- Source line 172: `alt_pattern`, the `Amount:`-annotated pattern. -/
def alt_pattern : Re :=
  reSeqs [reCROpt, .group 2 reDecimal, reWS, .group 3 reDecimal, reWS,
          reStr "Amount:", reWS, .group 4 reDecimal, reWS,
          .group 5 (rePlusL (.pred isAnyNoNl)), reWS,
          .group 6 reDate, reWS, .group 7 reDate, .eol]

/-- Source lines 122/192/219: `currency_pattern`
`(\d{1,3}(?:,\d{3})*\.\d+|\d+\.\d+)\s+([A-Z]{3})`. -/
def currency_pattern : Re :=
  reSeqs [.group 1 reDecimal, reWS, .group 2 reCCC]

/-- Source lines 130/234: `\b([A-Z]{3})\b`. -/
def bare_currency_pattern : Re := reSeqs [.wordB, .group 1 reCCC, .wordB]

/-- Source line 227: `(\d{1,3}(?:,\d{3})*\.\d+|\d+\.\d+)` searched in the
free text; the code reads `group(0)` of the result. -/
def decimal_search_pattern : Re := .group 1 reDecimal

/-- Source line 241: `next_line_amount_pattern`
`^Amount:\s+(\d{1,3}(?:,\d{3})*\.\d+|\d+\.\d+)`. -/
def next_line_amount_pattern : Re :=
  reSeqs [reStr "Amount:", reWS, .group 1 reDecimal]

/-- Source lines 80–86: the boilerplate patterns removed by the sanitizer,
in source order. -/
def patterns : List Re :=
  [reStr "ﺔﻴﻧﺎﻤﺘﺋﻻﺍ ﺔﻗﺎﻄﺒﻟﺍ ﺏﺎﺴﺣ ﻒﺸﻛ",
   reStr "credit card statement",
   reSeqs [reStr "Page no", .lit '.', .lit ' ', rePlusG reDigit,
           reStr " of ", rePlusG reDigit],
   reStr "ﺮﻬﺷ ﺏﺎﺴﺣ ﻒﺸﻛ",
   reSeqs [rePlusG (.pred isUpperAZ), .lit ',', .lit ' ',
           reDigit, reDigit, reDigit, reDigit, reStr " Statement Month"]]

/-! ## Strings, numbers and dates -/

/-- Python substring containment (`needle in hay`). -/
def containsSub (needle : List Char) : List Char → Bool
  | [] => needle.isEmpty
  | c :: rest => needle.isPrefixOf (c :: rest) || containsSub needle rest

/-- Python `needle in hay` on strings. -/
def strContains (needle hay : String) : Bool := containsSub needle.data hay.data

/-- Python `str.strip()` (ASCII whitespace at both ends). -/
def pystrip (s : String) : String :=
  String.mk (((s.data.dropWhile isPySpace).reverse.dropWhile isPySpace).reverse)

/-- Numeric value of a digit string. -/
def digitsVal (cs : List Char) : Nat :=
  cs.foldl (fun a c => a * 10 + (c.toNat - 48)) 0

/-- Beancount's `D` applied to a matched amount string: commas are removed
and the decimal string is read exactly (no rounding). Only called on
strings matched by `reDecimal`, which are plain nonnegative decimals. -/
def Dval (s : String) : ℚ :=
  let t := s.data.filter (fun c => c ≠ ',')
  let ip := t.takeWhile (fun c => c ≠ '.')
  let fp := (t.dropWhile (fun c => c ≠ '.')).drop 1
  mkRat (digitsVal ip * 10 ^ fp.length + digitsVal fp) (10 ^ fp.length)

/-- Gregorian leap year. -/
def isLeap (y : Nat) : Bool := y % 4 = 0 && (y % 100 ≠ 0 || y % 400 = 0)

/-- Days in a month. -/
def daysInMonth (y m : Nat) : Nat :=
  if m = 2 then (if isLeap y then 29 else 28)
  else if m = 4 || m = 6 || m = 9 || m = 11 then 30 else 31

/-- Python `datetime.strptime(s, '%d/%m/%y').date()`: parses `dd/mm/yy`
(`yy ≤ 68` is 20yy, otherwise 19yy, as in CPython) and raises `ValueError`
on anything that is not a valid calendar date. -/
def strptimeDMY (s : String) : Except PyErr PyDate :=
  match s.data with
  | [d1, d2, s1, m1, m2, s2, y1, y2] =>
      if isDigit d1 && isDigit d2 && s1 = '/' && isDigit m1 && isDigit m2 &&
         s2 = '/' && isDigit y1 && isDigit y2 then
        let dd := digitsVal [d1, d2]
        let mm := digitsVal [m1, m2]
        let yy := digitsVal [y1, y2]
        let year := if yy ≤ 68 then 2000 + yy else 1900 + yy
        if 1 ≤ mm && mm ≤ 12 && 1 ≤ dd && dd ≤ daysInMonth year mm then
          .ok ⟨year, mm, dd⟩
        else .error .valueError
      else .error .valueError
  | _ => .error .valueError

/-! ## Data model of the importer -/

/-- A beancount posting as the importer constructs it:
`data.Posting(default_account, units, None, None, None, None)`. -/
structure Posting where
  account : String
  number : ℚ
  currency : String
deriving DecidableEq, Repr

/-- A beancount transaction as the importer constructs it. The metadata
(`new_metadata(filepath, 0, ())`) and the constant empty tag/link sets are
omitted; the flag is the literal `"*"` passed at both construction sites. -/
structure Transaction where
  date : PyDate
  flag : String
  payee : Option String
  narration : String
  postings : List Posting
deriving DecidableEq, Repr

/-- The local variables `extract` fills in per recognized line (the spec's
ExtractedFields). `fee` and `description` are computed but never used when
the record is built; they are retained for fidelity. -/
structure ExtractedFields where
  is_credit : Bool
  amount : String
  fee : String
  transaction_amount : String
  transaction_currency : Option String
  posting_date : String
  transaction_date : String
  payee : Option String
  description : Option String
deriving DecidableEq, Repr

/-- The Python local `units`: `None` models the variable being unbound. -/
abbrev UnitsVal := ℚ × String

/-- The importer's configuration (constructor arguments, lines 37–41). -/
structure Importer where
  importer_account : String
  currency : String
  flag : String
  account_number : String

/-- Source lines 43–45: `filename` ignores its argument. -/
def Importer.filename (_self : Importer) (_filepath : String) : String :=
  "maybank.pdf"

/-- Source lines 47–48. -/
def Importer.account (self : Importer) (_filepath : String) : String :=
  self.importer_account

/-- Source lines 50–60: `identify`. The sniffed MIME type and the per-page
texts extracted by pdfplumber are explicit inputs. A non-PDF MIME type
returns `False`; empty joined text falls off the end of the function
(Python returns `None`, modelled as `none`); otherwise the result of
searching for the configured account number. The account number is a plain
token (a card-number fragment), for which `re.search` is substring search. -/
def Importer.identify (self : Importer) (mimetype : Option String)
    (pages : List String) : Option Bool :=
  if mimetype ≠ some "application/pdf" then some false
  else
    let text := String.intercalate "\n" pages
    if text ≠ "" then some (strContains self.account_number text) else none

/-- The names bound at module level in `rajhi_importer.py` (imports at
lines 6–31 and the definitions in the file). `pdf_to_text`, called by
`date` at line 64, is not among them and is defined nowhere else in the
repository, so the call raises `NameError`. -/
def moduleBindings : List String :=
  ["csv", "pdfplumber", "datetime", "re", "logging", "sp", "ROUND_DOWN",
   "path", "StringIO", "parse", "defaultdict", "parse_datetime", "account",
   "amount", "data", "flags", "position", "D", "ZERO", "beangulp",
   "mimetypes", "cache", "main", "Importer", "__license__"]

/-- Looking up a global name in the module, as CPython does when a function
body references it. -/
def lookupGlobal (name : String) : Except PyErr Unit :=
  if moduleBindings.contains name then .ok () else .error .nameError

/-- Source lines 62–67: `date` first evaluates `pdf_to_text(filepath)`.
The name `pdf_to_text` is unbound, so every call raises `NameError`; the
`Date:` search on lines 65–67 is unreachable. -/
def Importer.date (_self : Importer) (_filepath : String) :
    Except PyErr (Option PyDate) :=
  match lookupGlobal "pdf_to_text" with
  | .error e => .error e
  | .ok _ => .ok none

/-! ## The sanitizer (source lines 80–93) -/

/-- A line matches one of the boilerplate patterns at its start
(`any(re.match(pattern, line) for pattern in patterns)`). -/
def boilerplate (line : String) : Bool :=
  patterns.any (fun p => (rematch p line).isSome)

/-- Source lines 88–91: the accumulation loop that keeps every
non-boilerplate line, in order. -/
def sanitizeLines (ls : List String) : List String :=
  ls.foldl (fun clean_lines line =>
    if boilerplate line then clean_lines else clean_lines ++ [line]) []

/-- Helper for `splitlines`: split a character list at newlines, carrying
the (reversed) characters of the current line. -/
def splitlinesAux (cur : List Char) : List Char → List String
  | [] => [String.mk cur.reverse]
  | c :: rest =>
      if c = '\n' then String.mk cur.reverse :: splitlinesAux [] rest
      else splitlinesAux (c :: cur) rest

/-- Python `text.splitlines()` for newline-separated text (the statement
text contains only `\n` separators). -/
def splitlines (s : String) : List String := splitlinesAux [] s.data

/-! ## Field extraction (source lines 101–263) -/

/-- Lines 122–131 and 192–195 and 219–224: search the free text for an
embedded `decimal + 3-letter-code` pair. -/
def resolvePair (remaining : String) : Option (String × String) :=
  (research currency_pattern remaining).map (fun cs => (capD cs 1, capD cs 2))

/-- Lines 130–131 and 233–235: search for a bare 3-letter uppercase token. -/
def bareCurrency (remaining : String) : Option String :=
  (research bare_currency_pattern remaining).map (fun cs => capD cs 1)

/-- Lines 227–229: search for the first decimal and take `group(0)`. -/
def decimalSearch (remaining : String) : Option String :=
  (research decimal_search_pattern remaining).map (fun cs => capD cs 0)

/-- Lines 140–146: fields from a strict `advance_payment_pattern` match. -/
def advanceStrictFields (m : Caps) : ExtractedFields :=
  ⟨(capGet m 1).isSome, capD m 2, capD m 3, capD m 4, some (capD m 5),
   capD m 6, capD m 7, none, none⟩

/-- Lines 115–134: fields from the looser `general_pattern` fallback for an
"Advance Payment" line. -/
def advanceFallbackFields (m : Caps) : ExtractedFields :=
  let remaining := capD m 4
  match resolvePair remaining with
  | some (ta, tc) =>
      ⟨(capGet m 1).isSome, capD m 2, capD m 3, ta, some tc,
       capD m 5, capD m 6, none, none⟩
  | none =>
      ⟨(capGet m 1).isSome, capD m 2, capD m 3, capD m 2,
       bareCurrency remaining, capD m 5, capD m 6, none, none⟩

/-- Lines 184–206: fields from an `alt_pattern` (Type B) match; payee and
description come from the two lines above when they exist (`i >= 2`). -/
def altFields (lines : List String) (i : Nat) (m : Caps) : ExtractedFields :=
  let remaining := capD m 5
  ⟨(capGet m 1).isSome, capD m 2, capD m 3, capD m 4,
   (resolvePair remaining).map (fun p => p.2),
   capD m 6, capD m 7,
   if 2 ≤ i then some (lines.getD (i - 2) "") else none,
   if 2 ≤ i then some (lines.getD (i - 1) "") else none⟩

/-- Lines 210–238: fields from a plain `pattern` (Type C) match, before the
neighbor lines are consulted. -/
def plainFieldsCore (m : Caps) : ExtractedFields :=
  let remaining := capD m 4
  let amount := capD m 2
  match resolvePair remaining with
  | some (ta, tc) =>
      ⟨(capGet m 1).isSome, amount, capD m 3, ta, some tc,
       capD m 5, capD m 6, none, none⟩
  | none =>
      let ta := match decimalSearch remaining with
        | some t => t
        | none => amount
      ⟨(capGet m 1).isSome, amount, capD m 3, ta, bareCurrency remaining,
       capD m 5, capD m 6, none, none⟩

/-- Lines 150–160 and 265–275: construct the `data.Transaction`. The
argument evaluation order of the Python call is preserved: the
`strptime` of the posting date runs first (may raise `ValueError`), then
the narration concatenation (raises `TypeError` when
`transaction_currency` is `None`), then the posting reads `units`
(raises `UnboundLocalError` when the local was never assigned). -/
def buildEntry (self : Importer) (payee : Option String)
    (f : ExtractedFields) (units : Option UnitsVal) : Except PyErr Transaction :=
  match strptimeDMY f.posting_date with
  | .error e => .error e
  | .ok d =>
      match f.transaction_currency with
      | none => .error .typeError
      | some c =>
          match units with
          | none => .error .unboundLocalError
          | some u =>
              .ok ⟨d, "*", payee,
                   (if f.is_credit then "CR " else "-") ++
                     f.transaction_amount ++ " " ++ c ++ " on " ++
                     f.transaction_date,
                   [⟨self.importer_account, u.1, u.2⟩]⟩

/-- One iteration of the `while i < len(lines)` loop (lines 102–278):
classify the line at the cursor, extract its fields, build the record.
Returns the optional `(fields, record)` pair, the next cursor value, and
the value of the Python local `units` after the iteration. -/
def step (self : Importer) (lines : List String) (i : Nat)
    (units : Option UnitsVal) :
    Except PyErr (Option (ExtractedFields × Transaction) × Nat × Option UnitsVal) :=
  let current_line := lines.getD i ""
  match rematch advance_payment_pattern current_line with
  | some am =>
      let f := advanceStrictFields am
      let u' := some (Dval f.amount * (if f.is_credit then 1 else -1),
                      self.currency)
      match buildEntry self (some "Advance payment") f u' with
      | .error e => .error e
      | .ok t => .ok (some (f, t), i + 1, u')
  | none =>
      if strContains "Advance Payment" current_line then
        match rematch general_pattern current_line with
        | some m =>
            let f := advanceFallbackFields m
            match buildEntry self (some "Advance payment") f units with
            | .error e => .error e
            | .ok t => .ok (some (f, t), i + 1, units)
        | none => .ok (none, i + 1, units)
      else
        match rematch alt_pattern current_line with
        | some m =>
            let f := altFields lines i m
            let u' := some (Dval f.amount * (if f.is_credit then 1 else -1),
                            self.currency)
            match buildEntry self f.payee f u' with
            | .error e => .error e
            | .ok t => .ok (some (f, t), i + 1, u')
        | none =>
            match rematch pattern current_line with
            | some m =>
                let fc := plainFieldsCore m
                let u' := some (Dval fc.amount *
                                (if fc.is_credit then 1 else -1), self.currency)
                if decide (i + 1 < lines.length) &&
                   (rematch next_line_amount_pattern
                     (lines.getD (i + 1) "")).isSome then
                  let f := { fc with
                    payee := if 2 ≤ i then some (lines.getD (i - 2) "") else none,
                    description := if 2 ≤ i then some (lines.getD (i - 1) "") else none }
                  match buildEntry self f.payee f u' with
                  | .error e => .error e
                  | .ok t => .ok (some (f, t), i + 2, u')
                else
                  let f := { fc with
                    payee := if 0 < i then some (lines.getD (i - 1) "") else none,
                    description := if i + 1 < lines.length
                      then some (lines.getD (i + 1) "") else none }
                  match buildEntry self f.payee f u' with
                  | .error e => .error e
                  | .ok t => .ok (some (f, t), i + 1, u')
            | none => .ok (none, i + 1, units)

/-- The cursor loop. Every iteration advances the cursor by at least one,
so `lines.length` steps of fuel always suffice. -/
def extractLoop (self : Importer) (lines : List String) :
    Nat → Nat → Option UnitsVal → List Transaction → Except PyErr (List Transaction)
  | 0, _, _, acc => .ok acc.reverse
  | fuel + 1, i, u, acc =>
      if i < lines.length then
        match step self lines i u with
        | .error e => .error e
        | .ok (none, i', u') => extractLoop self lines fuel i' u' acc
        | .ok (some p, i', u') => extractLoop self lines fuel i' u' (p.2 :: acc)
      else .ok acc.reverse

/-- Source lines 69–280: `extract`. The pdfplumber per-page texts are an
explicit input; `existing` is unused as in the source. -/
def Importer.extract (self : Importer) (_filepath : String)
    (_existing : List Transaction) (pages : List String) :
    Except PyErr (List Transaction) :=
  let text := String.intercalate "\n" pages
  let clean_lines := sanitizeLines (splitlines text)
  let text_lines := String.intercalate "\n" clean_lines
  let lines := ((splitlines (pystrip text_lines)).map pystrip).filter
    (fun l => l ≠ "")
  extractLoop self lines lines.length 0 none []

/-! ## Claim theorems -/

/-- C10: for every input filepath, `filename` returns the constant string
`"maybank.pdf"`, independent of the input path and of the configuration. -/
theorem filename_constant (self self' : Importer) (fp fp' : String) :
    Importer.filename self fp = "maybank.pdf" ∧
    Importer.filename self fp = Importer.filename self' fp' :=
  ⟨rfl, rfl⟩

/-- C7: the claim says `date` locates a `Date: <value>` line and returns the
parsed value, or an absent value without raising.  In the code, every call
to `date` raises `NameError` because `pdf_to_text` (line 64) is defined
nowhere in the repository, so the `Date:` search is unreachable. -/
theorem date_always_raises (self : Importer) (fp : String) :
    Importer.date self fp = .error .nameError := rfl

/-- Helper for the sanitizer claim: the accumulation loop with any starting
accumulator equals that accumulator followed by the kept lines. -/
theorem sanitize_foldl_eq (ls acc : List String) :
    List.foldl (fun clean_lines line =>
        if boilerplate line then clean_lines else clean_lines ++ [line]) acc ls =
      acc ++ ls.filter (fun l => !boilerplate l) := by
  induction ls generalizing acc with
  | nil => simp
  | cons l ls ih =>
      by_cases h : boilerplate l
      · simp [List.foldl_cons, h, ih, List.filter_cons]
      · simp [List.foldl_cons, h, ih, List.filter_cons]

/-- C5: the sanitizer drops exactly the lines matching one of the fixed
boilerplate patterns at the start of the line, and the output is the
subsequence of all remaining lines in their original relative order. -/
theorem sanitizeLines_spec (ls : List String) :
    sanitizeLines ls = ls.filter (fun l => !boilerplate l) ∧
    (sanitizeLines ls).Sublist ls ∧
    ∀ l, l ∈ sanitizeLines ls ↔ l ∈ ls ∧ boilerplate l = false := by
  have h : sanitizeLines ls = ls.filter (fun l => !boilerplate l) := by
    simpa using sanitize_foldl_eq ls []
  refine ⟨h, ?_, ?_⟩
  · rw [h]; exact List.filter_sublist ls
  · intro l
    rw [h, List.mem_filter]
    simp

/-- C8: `identify` returns true iff the configured account token occurs in
the extracted text; it returns false when the MIME sniff is not
`application/pdf` or when the token is absent; and it returns the
undetermined value (Python `None`), not an exception, when extraction
yields no text. -/
theorem identify_spec (self : Importer) (mt : Option String) (pages : List String) :
    (mt ≠ some "application/pdf" → Importer.identify self mt pages = some false) ∧
    (mt = some "application/pdf" → String.intercalate "\n" pages ≠ "" →
      (Importer.identify self mt pages = some true ↔
        strContains self.account_number (String.intercalate "\n" pages) = true)) ∧
    (mt = some "application/pdf" → String.intercalate "\n" pages ≠ "" →
      strContains self.account_number (String.intercalate "\n" pages) = false →
      Importer.identify self mt pages = some false) ∧
    (mt = some "application/pdf" → String.intercalate "\n" pages = "" →
      Importer.identify self mt pages = none) := by
  refine ⟨?_, ?_, ?_, ?_⟩
  · intro h; simp [Importer.identify, h]
  · intro h1 h2; simp [Importer.identify, h1, h2]
  · intro h1 h2 h3; simp [Importer.identify, h1, h2, h3]
  · intro h1 h2; simp [Importer.identify, h1, h2]

/-- Witness for C8 at concrete inputs: a PDF whose text contains the token,
a non-PDF MIME type, and a PDF with empty extracted text. -/
theorem identify_spec_witness :
    Importer.identify ⟨"Liabilities:Rajhi:Bonvoy", "SAR", "*", "1234"⟩
        (some "application/pdf") ["blah 1234 blah"] = some true ∧
    Importer.identify ⟨"Liabilities:Rajhi:Bonvoy", "SAR", "*", "1234"⟩
        (some "text/plain") ["blah 1234 blah"] = some false ∧
    Importer.identify ⟨"Liabilities:Rajhi:Bonvoy", "SAR", "*", "1234"⟩
        (some "application/pdf") [""] = none := by
  refine ⟨?_, ?_, ?_⟩
  · exact ((identify_spec ⟨"Liabilities:Rajhi:Bonvoy", "SAR", "*", "1234"⟩
      (some "application/pdf") ["blah 1234 blah"]).2.1 rfl (by decide)).mpr (by decide)
  · exact (identify_spec ⟨"Liabilities:Rajhi:Bonvoy", "SAR", "*", "1234"⟩
      (some "text/plain") ["blah 1234 blah"]).1 (by decide)
  · exact (identify_spec ⟨"Liabilities:Rajhi:Bonvoy", "SAR", "*", "1234"⟩
      (some "application/pdf") [""]).2.2.2 rfl rfl

/-- C1: the claim says extraction never raises — every line that matches a
transaction shape yields a record without an exception.  Refuted by the
code: the line below fully matches the standard pattern, its free text
contains no currency, `transaction_currency` stays `None`, and building the
narration raises `TypeError`. -/
theorem extract_matched_line_raises :
    (rematch pattern "10.00 1.00 Coffee Shop 03/04/23 04/04/23").isSome = true ∧
    Importer.extract ⟨"Liabilities:Rajhi:Bonvoy", "SAR", "*", "1234"⟩
        "statement.pdf" [] ["10.00 1.00 Coffee Shop 03/04/23 04/04/23"] =
      .error .typeError :=
  ⟨rfl, rfl⟩

/-- C2: the claim says the line `150.00 2.00 Some Merchant 01/05/23
02/05/23` with currency SAR produces a record dated 2023-05-01 with posting
amount −150.00 SAR.  In the code the line matches, no currency is found in
"Some Merchant", `transaction_currency` is `None`, and extraction raises
`TypeError` instead of producing any record. -/
theorem extract_scenario1_raises :
    (plainFieldsCore ((rematch pattern
        "150.00 2.00 Some Merchant 01/05/23 02/05/23").getD [])).transaction_currency
      = none ∧
    Importer.extract ⟨"Liabilities:Rajhi:Bonvoy", "SAR", "*", "1234"⟩
        "statement.pdf" [] ["150.00 2.00 Some Merchant 01/05/23 02/05/23"] =
      .error .typeError :=
  ⟨rfl, rfl⟩

/-- C3: the claim says the three lines produce a record with payee
"Amazon", description "Online purchase", transaction_amount 73.50 and
currency USD.  The code does compute payee, description and
transaction_amount as claimed, but its currency search looks for a
`decimal + code` pair inside the remainder `"USD"`, finds none, leaves
`transaction_currency` as `None`, and record construction raises
`TypeError`: no record is produced and no USD currency is extracted. -/
theorem extract_scenario3_raises :
    (altFields ["Amazon", "Online purchase",
        "75.00 1.50 Amount: 73.50 USD 05/07/23 06/07/23"] 2
        ((rematch alt_pattern
          "75.00 1.50 Amount: 73.50 USD 05/07/23 06/07/23").getD [])).payee
      = some "Amazon" ∧
    (altFields ["Amazon", "Online purchase",
        "75.00 1.50 Amount: 73.50 USD 05/07/23 06/07/23"] 2
        ((rematch alt_pattern
          "75.00 1.50 Amount: 73.50 USD 05/07/23 06/07/23").getD [])).description
      = some "Online purchase" ∧
    (altFields ["Amazon", "Online purchase",
        "75.00 1.50 Amount: 73.50 USD 05/07/23 06/07/23"] 2
        ((rematch alt_pattern
          "75.00 1.50 Amount: 73.50 USD 05/07/23 06/07/23").getD [])).transaction_amount
      = "73.50" ∧
    (altFields ["Amazon", "Online purchase",
        "75.00 1.50 Amount: 73.50 USD 05/07/23 06/07/23"] 2
        ((rematch alt_pattern
          "75.00 1.50 Amount: 73.50 USD 05/07/23 06/07/23").getD [])).transaction_currency
      = none ∧
    Importer.extract ⟨"Liabilities:Rajhi:Bonvoy", "SAR", "*", "1234"⟩
        "statement.pdf" []
        ["Amazon", "Online purchase",
         "75.00 1.50 Amount: 73.50 USD 05/07/23 06/07/23"] =
      .error .typeError :=
  ⟨rfl, rfl, rfl, rfl, rfl⟩

/-- C4: the claim says every emitted posting's signed amount is the raw
amount of its own line, including on the looser AdvancePayment fallback
pattern.  Refuted by the code: on the fallback path `units` is never
assigned, so the second record below (a debit of raw amount 1.00, which the
claim says must post −1.00) reuses the stale `units` +5.00 of the first
line; and when a fallback line comes first, extraction raises
`UnboundLocalError`. -/
theorem extract_fallback_stale_units :
    Importer.extract ⟨"Liabilities:Rajhi:Bonvoy", "SAR", "*", "1234"⟩
        "statement.pdf" []
        ["CR 5.00 0.00 Advance Payment X 5.00 SAR 10/06/23 11/06/23",
         "1.00 0.00 Advance Payment ABC 01/01/23 02/01/23"] =
      .ok [⟨⟨2023, 6, 10⟩, "*", some "Advance payment", "CR 5.00 SAR on 11/06/23",
            [⟨"Liabilities:Rajhi:Bonvoy", 5, "SAR"⟩]⟩,
           ⟨⟨2023, 1, 1⟩, "*", some "Advance payment", "-1.00 ABC on 02/01/23",
            [⟨"Liabilities:Rajhi:Bonvoy", 5, "SAR"⟩]⟩] ∧
    Dval "1.00" = 1 ∧ (5 : ℚ) ≠ -1 ∧
    Importer.extract ⟨"Liabilities:Rajhi:Bonvoy", "SAR", "*", "1234"⟩
        "statement.pdf" [] ["1.00 0.00 Advance Payment ABC 01/01/23 02/01/23"] =
      .error .unboundLocalError := by
  refine ⟨by with_unfolding_all rfl, rfl, by decide, rfl⟩

/-- C6 counterexample: a Plain-shape line immediately followed by an
`Amount: <decimal>` continuation for which the claim asserts a record is
built; the code instead raises `TypeError` (no currency in "Some
Merchant"), so no record is built at all. -/
theorem extract_continuation_raises :
    (rematch pattern "1.00 0.50 Some Merchant 01/01/23 02/01/23").isSome = true ∧
    (rematch next_line_amount_pattern "Amount: 3.00").isSome = true ∧
    Importer.extract ⟨"Liabilities:Rajhi:Bonvoy", "SAR", "*", "1234"⟩
        "statement.pdf" []
        ["X", "Y", "1.00 0.50 Some Merchant 01/01/23 02/01/23", "Amount: 3.00"] =
      .error .typeError :=
  ⟨rfl, rfl, rfl⟩

/-- C9 counterexample: a transaction-shaped line at index 0 (also the last
index) for which the claim asserts the record is still emitted with absent
payee/description; the code instead raises `TypeError` (no currency in the
free text), so no record is emitted. -/
theorem extract_boundary_raises :
    (rematch pattern "20.00 3.00 Bakery 05/05/23 06/05/23").isSome = true ∧
    Importer.extract ⟨"Liabilities:Rajhi:Bonvoy", "SAR", "*", "1234"⟩
        "statement.pdf" [] ["20.00 3.00 Bakery 05/05/23 06/05/23"] =
      .error .typeError :=
  ⟨rfl, rfl⟩

/-- Helper: record construction succeeds exactly when the posting date
parses, the transaction currency is present, and `units` is bound. -/
theorem buildEntry_ok (self : Importer) (payee : Option String)
    (f : ExtractedFields) (u : UnitsVal) (c : String) (d : PyDate)
    (hc : f.transaction_currency = some c)
    (hd : strptimeDMY f.posting_date = .ok d) :
    buildEntry self payee f (some u) =
      .ok ⟨d, "*", payee,
           (if f.is_credit then "CR " else "-") ++ f.transaction_amount ++
             " " ++ c ++ " on " ++ f.transaction_date,
           [⟨self.importer_account, u.1, u.2⟩]⟩ := by
  simp only [buildEntry, hd, hc]

/-- C6 (amended): a Plain-shape line (no Advance Payment, no `alt_pattern`
match, `pattern` matches) whose immediately following line matches
`^Amount: <decimal>`, with at least two preceding lines, and whose
currency resolution yields a code and whose posting date parses, is built
as AmountAnnotated: payee and description come from the two lines
preceding the cursor and the cursor advances by 2, so the continuation
line never itself produces a record (the loop proceeds directly from
`i + 2`). -/
theorem step_plain_continuation (self : Importer) (lines : List String)
    (i : Nat) (u : Option UnitsVal) (m : Caps) (c : String) (d : PyDate)
    (hadv : rematch advance_payment_pattern (lines.getD i "") = none)
    (hsub : strContains "Advance Payment" (lines.getD i "") = false)
    (halt : rematch alt_pattern (lines.getD i "") = none)
    (hp : rematch pattern (lines.getD i "") = some m)
    (hlen : i + 1 < lines.length)
    (hnext : (rematch next_line_amount_pattern (lines.getD (i + 1) "")).isSome = true)
    (hi : 2 ≤ i)
    (hc : (plainFieldsCore m).transaction_currency = some c)
    (hd : strptimeDMY (plainFieldsCore m).posting_date = .ok d) :
    step self lines i u =
      .ok (some ({ plainFieldsCore m with
                   payee := some (lines.getD (i - 2) ""),
                   description := some (lines.getD (i - 1) "") },
                 ⟨d, "*", some (lines.getD (i - 2) ""),
                  (if (plainFieldsCore m).is_credit then "CR " else "-") ++
                    (plainFieldsCore m).transaction_amount ++ " " ++ c ++
                    " on " ++ (plainFieldsCore m).transaction_date,
                  [⟨self.importer_account,
                    Dval (plainFieldsCore m).amount *
                      (if (plainFieldsCore m).is_credit then 1 else -1),
                    self.currency⟩]⟩),
           i + 2,
           some (Dval (plainFieldsCore m).amount *
                   (if (plainFieldsCore m).is_credit then 1 else -1),
                 self.currency)) ∧
    ∀ fuel acc,
      extractLoop self lines (fuel + 1) i u acc =
        extractLoop self lines fuel (i + 2)
          (some (Dval (plainFieldsCore m).amount *
                   (if (plainFieldsCore m).is_credit then 1 else -1),
                 self.currency))
          (⟨d, "*", some (lines.getD (i - 2) ""),
            (if (plainFieldsCore m).is_credit then "CR " else "-") ++
              (plainFieldsCore m).transaction_amount ++ " " ++ c ++
              " on " ++ (plainFieldsCore m).transaction_date,
            [⟨self.importer_account,
              Dval (plainFieldsCore m).amount *
                (if (plainFieldsCore m).is_credit then 1 else -1),
              self.currency⟩]⟩ :: acc) := by
  have h1 : decide (i + 1 < lines.length) = true := decide_eq_true hlen
  have hstep : step self lines i u =
      .ok (some ({ plainFieldsCore m with
                   payee := some (lines.getD (i - 2) ""),
                   description := some (lines.getD (i - 1) "") },
                 ⟨d, "*", some (lines.getD (i - 2) ""),
                  (if (plainFieldsCore m).is_credit then "CR " else "-") ++
                    (plainFieldsCore m).transaction_amount ++ " " ++ c ++
                    " on " ++ (plainFieldsCore m).transaction_date,
                  [⟨self.importer_account,
                    Dval (plainFieldsCore m).amount *
                      (if (plainFieldsCore m).is_credit then 1 else -1),
                    self.currency⟩]⟩),
           i + 2,
           some (Dval (plainFieldsCore m).amount *
                   (if (plainFieldsCore m).is_credit then 1 else -1),
                 self.currency)) := by
    simp only [step, hadv, hsub, halt, hp, h1, hnext, Bool.and_self, hi,
      if_true, if_pos hi]
    rw [buildEntry_ok _ _ _ _ c d (by simpa using hc) (by simpa using hd)]
    simp
  refine ⟨hstep, ?_⟩
  intro fuel acc
  have hlt : i < lines.length := Nat.lt_of_succ_lt hlen
  simp only [extractLoop, if_pos hlt, hstep]

/-- Witness for the amended C6 at a concrete four-line input: the record is
built with payee "X" and description "Y" from the two preceding lines, the
cursor jumps from 2 to 4, and the loop never visits the continuation line. -/
theorem step_plain_continuation_witness :
    step ⟨"Liabilities:Rajhi:Bonvoy", "SAR", "*", "1234"⟩
        ["X", "Y", "1.00 0.50 Shop 2.00 USD 01/01/23 02/01/23", "Amount: 3.00"]
        2 none =
      .ok (some (⟨false, "1.00", "0.50", "2.00", some "USD", "01/01/23",
                  "02/01/23", some "X", some "Y"⟩,
                 ⟨⟨2023, 1, 1⟩, "*", some "X", "-2.00 USD on 02/01/23",
                  [⟨"Liabilities:Rajhi:Bonvoy", -1, "SAR"⟩]⟩),
           4, some (-1, "SAR")) ∧
    extractLoop ⟨"Liabilities:Rajhi:Bonvoy", "SAR", "*", "1234"⟩
        ["X", "Y", "1.00 0.50 Shop 2.00 USD 01/01/23 02/01/23", "Amount: 3.00"]
        2 2 none [] =
      extractLoop ⟨"Liabilities:Rajhi:Bonvoy", "SAR", "*", "1234"⟩
        ["X", "Y", "1.00 0.50 Shop 2.00 USD 01/01/23 02/01/23", "Amount: 3.00"]
        1 4 (some (-1, "SAR"))
        [⟨⟨2023, 1, 1⟩, "*", some "X", "-2.00 USD on 02/01/23",
          [⟨"Liabilities:Rajhi:Bonvoy", -1, "SAR"⟩]⟩] := by
  have h := step_plain_continuation
    ⟨"Liabilities:Rajhi:Bonvoy", "SAR", "*", "1234"⟩
    ["X", "Y", "1.00 0.50 Shop 2.00 USD 01/01/23 02/01/23", "Amount: 3.00"]
    2 none
    ((rematch pattern "1.00 0.50 Shop 2.00 USD 01/01/23 02/01/23").getD [])
    "USD" ⟨2023, 1, 1⟩ rfl rfl rfl rfl (by decide) rfl (by decide) rfl rfl
  exact ⟨by with_unfolding_all exact h.1, by with_unfolding_all exact h.2 1 []⟩

/-- C9 (amended): missing neighbor lines yield absent payee/description
fields rather than a failure, and the record is still emitted provided the
line's currency resolution yields a code and its posting date parses.
First conjunct: a Plain line with no `Amount:` continuation takes payee
from the previous line only when `0 < i` and description from the next
line only when one exists (so payee is absent at index 0 and description
is absent at the last index).  Second conjunct: an AmountAnnotated
(`alt_pattern`) line with fewer than two preceding lines gets both payee
and description absent, and the record is still emitted. -/
theorem step_boundary_absent_fields :
    (∀ (self : Importer) (lines : List String) (i : Nat) (u : Option UnitsVal)
        (m : Caps) (c : String) (d : PyDate),
      rematch advance_payment_pattern (lines.getD i "") = none →
      strContains "Advance Payment" (lines.getD i "") = false →
      rematch alt_pattern (lines.getD i "") = none →
      rematch pattern (lines.getD i "") = some m →
      (decide (i + 1 < lines.length) &&
        (rematch next_line_amount_pattern (lines.getD (i + 1) "")).isSome) = false →
      (plainFieldsCore m).transaction_currency = some c →
      strptimeDMY (plainFieldsCore m).posting_date = .ok d →
      step self lines i u =
        .ok (some ({ plainFieldsCore m with
                     payee := if 0 < i then some (lines.getD (i - 1) "") else none,
                     description := if i + 1 < lines.length
                       then some (lines.getD (i + 1) "") else none },
                   ⟨d, "*",
                    (if 0 < i then some (lines.getD (i - 1) "") else none),
                    (if (plainFieldsCore m).is_credit then "CR " else "-") ++
                      (plainFieldsCore m).transaction_amount ++ " " ++ c ++
                      " on " ++ (plainFieldsCore m).transaction_date,
                    [⟨self.importer_account,
                      Dval (plainFieldsCore m).amount *
                        (if (plainFieldsCore m).is_credit then 1 else -1),
                      self.currency⟩]⟩),
             i + 1,
             some (Dval (plainFieldsCore m).amount *
                     (if (plainFieldsCore m).is_credit then 1 else -1),
                   self.currency))) ∧
    (∀ (self : Importer) (lines : List String) (i : Nat) (u : Option UnitsVal)
        (m : Caps) (c : String) (d : PyDate),
      rematch advance_payment_pattern (lines.getD i "") = none →
      strContains "Advance Payment" (lines.getD i "") = false →
      rematch alt_pattern (lines.getD i "") = some m →
      i < 2 →
      (altFields lines i m).transaction_currency = some c →
      strptimeDMY (altFields lines i m).posting_date = .ok d →
      (altFields lines i m).payee = none ∧
      (altFields lines i m).description = none ∧
      step self lines i u =
        .ok (some (altFields lines i m,
                   ⟨d, "*", (altFields lines i m).payee,
                    (if (altFields lines i m).is_credit then "CR " else "-") ++
                      (altFields lines i m).transaction_amount ++ " " ++ c ++
                      " on " ++ (altFields lines i m).transaction_date,
                    [⟨self.importer_account,
                      Dval (altFields lines i m).amount *
                        (if (altFields lines i m).is_credit then 1 else -1),
                      self.currency⟩]⟩),
             i + 1,
             some (Dval (altFields lines i m).amount *
                     (if (altFields lines i m).is_credit then 1 else -1),
                   self.currency))) := by
  refine ⟨?_, ?_⟩
  · intro self lines i u m c d hadv hsub halt hp hnc hc hd
    simp only [step, hadv, hsub, halt, hp, hnc, buildEntry, hc, hd]
    simp
  · intro self lines i u m c d hadv hsub halt hi2 hc hd
    have hnle : ¬ 2 ≤ i := by omega
    refine ⟨by simp [altFields, hnle], by simp [altFields, hnle], ?_⟩
    simp only [step, hadv, hsub, halt, buildEntry, hc, hd]
    simp

/-- Witness for the amended C9 at concrete inputs: a Plain line that is both
the first and the last line yields absent payee and description and is
still emitted; an `alt_pattern` line at index 0 (fewer than two
predecessors) yields absent payee and description and is still emitted. -/
theorem step_boundary_absent_fields_witness :
    step ⟨"Liabilities:Rajhi:Bonvoy", "SAR", "*", "1234"⟩
        ["1.00 0.50 Shop 2.00 USD 01/01/23 02/01/23"] 0 none =
      .ok (some (⟨false, "1.00", "0.50", "2.00", some "USD", "01/01/23",
                  "02/01/23", none, none⟩,
                 ⟨⟨2023, 1, 1⟩, "*", none, "-2.00 USD on 02/01/23",
                  [⟨"Liabilities:Rajhi:Bonvoy", -1, "SAR"⟩]⟩),
           1, some (-1, "SAR")) ∧
    step ⟨"Liabilities:Rajhi:Bonvoy", "SAR", "*", "1234"⟩
        ["75.00 1.50 Amount: 73.50 Stuff 73.50 USD 05/07/23 06/07/23"] 0 none =
      .ok (some (⟨false, "75.00", "1.50", "73.50", some "USD", "05/07/23",
                  "06/07/23", none, none⟩,
                 ⟨⟨2023, 7, 5⟩, "*", none, "-73.50 USD on 06/07/23",
                  [⟨"Liabilities:Rajhi:Bonvoy", -75, "SAR"⟩]⟩),
           1, some (-75, "SAR")) := by
  have h1 := step_boundary_absent_fields.1
    ⟨"Liabilities:Rajhi:Bonvoy", "SAR", "*", "1234"⟩
    ["1.00 0.50 Shop 2.00 USD 01/01/23 02/01/23"] 0 none
    ((rematch pattern "1.00 0.50 Shop 2.00 USD 01/01/23 02/01/23").getD [])
    "USD" ⟨2023, 1, 1⟩ rfl rfl rfl rfl (by decide) rfl rfl
  have h2 := (step_boundary_absent_fields.2
    ⟨"Liabilities:Rajhi:Bonvoy", "SAR", "*", "1234"⟩
    ["75.00 1.50 Amount: 73.50 Stuff 73.50 USD 05/07/23 06/07/23"] 0 none
    ((rematch alt_pattern
        "75.00 1.50 Amount: 73.50 Stuff 73.50 USD 05/07/23 06/07/23").getD [])
    "USD" ⟨2023, 7, 5⟩ rfl rfl rfl (by decide) rfl rfl).2.2
  exact ⟨by with_unfolding_all exact h1, by with_unfolding_all exact h2⟩
